import Mathlib

/-!
Shallow embedding of the sales-analysis program in `app.py` (a Streamlit
sneaker-sales analyzer).  Python floats are modelled by exact rationals
(`ℚ`), `datetime` values by a record of calendar fields compared
lexicographically (as CPython does), `timedelta`-based arithmetic by a
minutes-since-epoch conversion via the standard civil-calendar day count,
and fallible operations (`strptime`, `float`, `datetime.replace`) by
`Option` / `Except`.  `datetime.now()` is a parameter `now`, modelled at
minute granularity (all parsed datetimes have second = 0, so comparisons
against a truncated-to-minute `now` agree with comparisons against the
real clock).
-/

namespace AvSales

/- Batteries marks the `Rat` field operations irreducible for elaboration
performance; concrete runs of the embedded program are evaluated by
`decide`, which needs them to unfold. -/
attribute [local semireducible] Rat.add Rat.sub Rat.mul Rat.inv Rat.ofScientific

/-- A naive `datetime` at minute resolution (the parser never produces
seconds or microseconds). -/
structure DateTime where
  year : ℤ
  month : ℕ
  day : ℕ
  hour : ℕ
  minute : ℕ
deriving DecidableEq, Repr

/-- CPython compares naive datetimes field-lexicographically. -/
def dtLt (a b : DateTime) : Bool :=
  if a.year ≠ b.year then decide (a.year < b.year)
  else if a.month ≠ b.month then decide (a.month < b.month)
  else if a.day ≠ b.day then decide (a.day < b.day)
  else if a.hour ≠ b.hour then decide (a.hour < b.hour)
  else decide (a.minute < b.minute)

def dtLe (a b : DateTime) : Bool := !(dtLt b a)

/-- Gregorian leap-year test. -/
def isLeap (y : ℤ) : Bool := y % 4 = 0 ∧ (y % 100 ≠ 0 ∨ y % 400 = 0)

/-- Length of a month (used by the `datetime` day-of-month validation). -/
def daysInMonth (y : ℤ) (m : ℕ) : ℕ :=
  if m = 2 then (if isLeap y then 29 else 28)
  else if m = 4 ∨ m = 6 ∨ m = 9 ∨ m = 11 then 30
  else 31

/-- Days since 1970-01-01 of a civil date (the standard `days_from_civil` algorithm);
this is `date.toordinal()` shifted by a constant, so differences agree
with those of CPython. -/
def daysFromCivil (y : ℤ) (m d : ℕ) : ℤ :=
  let y' : ℤ := if m ≤ 2 then y - 1 else y
  let era : ℤ := y'.fdiv 400
  let yoe : ℤ := y' - era * 400
  let mp : ℤ := (m : ℤ) + (if 2 < m then -3 else 9)
  let doy : ℤ := (153 * mp + 2).fdiv 5 + (d : ℤ) - 1
  let doe : ℤ := yoe * 365 + yoe.fdiv 4 - yoe.fdiv 100 + doy
  era * 146097 + doe - 719468

/-- Minutes since the epoch; `datetime` subtraction is the difference of
these. -/
def toMin (dt : DateTime) : ℤ :=
  daysFromCivil dt.year dt.month dt.day * 1440 + (dt.hour : ℤ) * 60 + (dt.minute : ℤ)

/-- Python `(b - a).days`: floor of the difference in whole days. -/
def daysBetween (a b : DateTime) : ℤ := (toMin b - toMin a).fdiv 1440

/-- One parsed sale: a Python dict with keys date and price. -/
structure Sale where
  date : DateTime
  price : ℚ
deriving DecidableEq, Repr

/-! ### Python numeric helpers -/

/-- Round-half-to-even to an integer, as the Python builtin `round` does on exact
values. -/
def roundHalfEven (q : ℚ) : ℤ :=
  let f := ⌊q⌋
  if q - f < 1/2 then f
  else if (1:ℚ)/2 < q - f then f + 1
  else if f % 2 = 0 then f else f + 1

/-- Python `round(x, p)` (bankers rounding at `p` decimal places). -/
def pyRound (q : ℚ) (p : ℕ) : ℚ := (roundHalfEven (q * 10 ^ p) : ℚ) / 10 ^ p

/-- The function `statistics.mean` on rationals (call sites guarantee nonempty input). -/
def pyMean (l : List ℚ) : ℚ := l.sum / l.length

/-- Stable insertion of `a` before the first element `b` with `le a b`. -/
def insertSorted {α : Type} (le : α → α → Bool) (a : α) : List α → List α
  | [] => [a]
  | b :: l => if le a b then a :: b :: l else b :: insertSorted le a l

/-- A stable sort (insertion sort), extensionally equal to the stable
Python `sorted`; structurally recursive so that concrete runs reduce. -/
def stableSort {α : Type} (le : α → α → Bool) : List α → List α
  | [] => []
  | a :: l => insertSorted le a (stableSort le l)

/-- Python `min` over a nonempty list (first minimal element). -/
def pyMin (l : List ℚ) : ℚ :=
  match l with
  | [] => 0
  | a :: t => t.foldl (fun x y => if y < x then y else x) a

/-- Python `max` over a nonempty list (first maximal element). -/
def pyMax (l : List ℚ) : ℚ :=
  match l with
  | [] => 0
  | a :: t => t.foldl (fun x y => if x < y then y else x) a

/-- The function `statistics.median`: middle element of the sorted list, or the average
of the two middle elements. -/
def pyMedian (l : List ℚ) : ℚ :=
  let s := stableSort (fun a b => decide (a ≤ b)) l
  let n := l.length
  if n % 2 = 1 then s.getD (n / 2) 0
  else (s.getD (n / 2 - 1) 0 + s.getD (n / 2) 0) / 2

/-! ### `calculate_net` (app.py lines 10–15) -/

/-- Net payout after fees based on sold price. -/
def calculate_net (price : ℚ) : ℚ :=
  if price < 57 then price * 0.97 - 8.5
  else price * 0.89 - 4

/-! ### `get_target_roi` (app.py lines 18–27) -/

/-- Target ROI based on average days between sales (`none` = Python
`None`). -/
def get_target_roi (avg_days : Option ℚ) : ℚ :=
  match avg_days with
  | none => 0.45
  | some d =>
    if d < 5 then 0.30
    else if 10 ≤ d ∧ d ≤ 15 then 0.40
    else 0.45

/-! ### `calculate_avg_days` (app.py lines 66–79) -/

/-- Stable ascending sort by the `date` key, as
`sorted(sales_list, key=lambda x: ...)` keyed on the date. -/
def sortByDate (l : List Sale) : List Sale :=
  stableSort (fun a b => dtLe a.date b.date) l

/-- The loop `for i in range(1, len(sorted_sales))` collecting
`(s[i] - s[i-1]).days`. -/
def intervalsOf : List Sale → List ℤ
  | a :: b :: t => daysBetween a.date b.date :: intervalsOf (b :: t)
  | _ => []

/-- Average days between consecutive sales. -/
def calculate_avg_days (sales_list : List Sale) : Option ℚ :=
  if sales_list.length < 2 then none
  else
    let intervals := intervalsOf (sortByDate sales_list)
    if intervals = [] then none
    else some (pyRound ((intervals.sum : ℤ) / (intervals.length : ℚ)) 1)

/-! ### Regex engines for the two patterns used by `parse_sales`

`re.search` finds the leftmost position where the pattern matches; the
implementations below scan positions left to right and at each position
follow the greedy, backtracking semantics of the pattern. `\d` / `\s` are
modelled as ASCII digits / whitespace (the inputs of interest are ASCII
apart from `£`). -/

def isDig (c : Char) : Bool := c.isDigit

/-- Try `\d{1,2}:\d{2} (?:AM|PM)` at the start of `cs` (greedy hour:
two digits tried first, then one).  Returns the matched group-2 text. -/
def tryTime (cs : List Char) : Option (List Char) :=
  match cs with
  | h1 :: h2 :: c :: m1 :: m2 :: sp :: p :: mm :: _ =>
    if isDig h1 ∧ isDig h2 ∧ c = ':' ∧ isDig m1 ∧ isDig m2 ∧ sp = ' '
        ∧ (p = 'A' ∨ p = 'P') ∧ mm = 'M' then
      some [h1, h2, ':', m1, m2, ' ', p, 'M']
    else
      match cs with
      | h1 :: c :: m1 :: m2 :: sp :: p :: mm :: _ =>
        if isDig h1 ∧ c = ':' ∧ isDig m1 ∧ isDig m2 ∧ sp = ' '
            ∧ (p = 'A' ∨ p = 'P') ∧ mm = 'M' then
          some [h1, ':', m1, m2, ' ', p, 'M']
        else none
      | _ => none
  | h1 :: c :: m1 :: m2 :: sp :: p :: mm :: _ =>
    if isDig h1 ∧ c = ':' ∧ isDig m1 ∧ isDig m2 ∧ sp = ' '
        ∧ (p = 'A' ∨ p = 'P') ∧ mm = 'M' then
      some [h1, ':', m1, m2, ' ', p, 'M']
    else none
  | _ => none

/-- Try `(\d{2}/\d{2}/\d{2}), ` followed by the time pattern at the start
of `cs`. Returns (group 1, group 2). -/
def tryDateAt (cs : List Char) : Option (List Char × List Char) :=
  match cs with
  | a :: b :: s1 :: c :: d :: s2 :: e :: f :: cm :: sp :: rest =>
    if isDig a ∧ isDig b ∧ s1 = '/' ∧ isDig c ∧ isDig d ∧ s2 = '/'
        ∧ isDig e ∧ isDig f ∧ cm = ',' ∧ sp = ' ' then
      match tryTime rest with
      | some t => some ([a, b, '/', c, d, '/', e, f], t)
      | none => none
    else none
  | _ => none

/-- Search as `re.search` does for the date-time pattern (two-digit month/day/year,
12-hour clock with meridiem):
first position (left to right) where the pattern matches. -/
def dateSearch : List Char → Option (List Char × List Char)
  | [] => none
  | c :: rest =>
    match tryDateAt (c :: rest) with
    | some g => some g
    | none => dateSearch rest

/-- The optional fractional part `(?:\.\d{1,2})?` (greedy: two digits if
available, else one, else empty). -/
def fracPart (cs : List Char) : List Char :=
  match cs with
  | '.' :: d1 :: d2 :: _ => if isDig d1 ∧ isDig d2 then ['.', d1, d2]
      else if isDig d1 then ['.', d1] else []
  | '.' :: d1 :: _ => if isDig d1 then ['.', d1] else []
  | _ => []

/-- Search as `re.search` does for the price pattern (currency sign, optional
whitespace, digits-and-commas, optional 1-2 digit fraction): group 1 of the
leftmost match.  `\s*` and `[\d,]+` use disjoint character classes, so
greedy matching needs no backtracking. -/
def priceSearch : List Char → Option (List Char)
  | [] => none
  | c :: rest =>
    if c = '£' then
      let rest' := rest.dropWhile (fun x => x.isWhitespace)
      let ds := rest'.takeWhile (fun x => isDig x ∨ x = ',')
      if ds = [] then priceSearch rest
      else some (ds ++ fracPart (rest'.drop ds.length))
    else priceSearch rest

/-! ### `float()` on a matched price group (commas removed) -/

/-- Numeric value of a string of shape `digits* ('.' digit{1,2})?`. -/
def decimalValue (cs : List Char) : ℚ :=
  let intPart := cs.takeWhile (fun c => c ≠ '.')
  let frac := (cs.dropWhile (fun c => c ≠ '.')).drop 1
  (intPart.foldl (fun n c => 10 * n + (c.toNat - '0'.toNat)) 0 : ℕ)
    + (frac.foldl (fun n c => 10 * n + (c.toNat - '0'.toNat)) 0 : ℕ) / (10 ^ frac.length : ℚ)

/-- Python `float(s)` on the comma-stripped group: raises `ValueError`
(here `none`) exactly when no digit remains (e.g. group `","`). -/
def pyFloat (cs : List Char) : Option ℚ :=
  if cs.any isDig then some (decimalValue cs) else none

/-! ### `datetime.strptime` with format `%m/%d/%y, %I:%M %p` -/

def digitsToNat (cs : List Char) : ℕ :=
  cs.foldl (fun n c => 10 * n + (c.toNat - '0'.toNat)) 0

/-- POSIX two-digit-year pivot used by `_strptime`. -/
def pivotYear (yy : ℕ) : ℤ := if yy ≤ 68 then 2000 + yy else 1900 + yy

/-- The call `datetime.strptime` applied to the two matched groups with format
`%m/%d/%y, %I:%M %p`.
`dateCs` is the 8-character group `MM/DD/YY`, `timeCs` the time group.
Validates exactly what the CPython `_strptime` module plus the `datetime`
constructor validate: month 1–12, day 1–31 and within the month,
12-hour clock hour 1–12, minute ≤ 59; `%p` maps 12 AM → 0 and
h PM → h+12 (h ≠ 12). -/
def pyStrptime (dateCs timeCs : List Char) : Option DateTime :=
  match dateCs with
  | [m1, m2, _, d1, d2, _, y1, y2] =>
    let month := digitsToNat [m1, m2]
    let day := digitsToNat [d1, d2]
    let year := pivotYear (digitsToNat [y1, y2])
    let hourDigits := timeCs.takeWhile isDig
    let hour12 := digitsToNat hourDigits
    let minDigits := ((timeCs.dropWhile isDig).drop 1).take 2
    let minute := digitsToNat minDigits
    let isPM := timeCs.contains 'P'
    if 1 ≤ month ∧ month ≤ 12 ∧ 1 ≤ day ∧ day ≤ daysInMonth year month
        ∧ 1 ≤ hour12 ∧ hour12 ≤ 12 ∧ minute ≤ 59 then
      let hour := if isPM then (if hour12 = 12 then 12 else hour12 + 12)
                  else (if hour12 = 12 then 0 else hour12)
      some ⟨year, month, day, hour, minute⟩
    else none
  | _ => none

/-- The call `dt.replace(year=y)`: raises `ValueError` (here `none`) when the day
is invalid in the new year (Feb 29 → non-leap year). -/
def pyReplaceYear (dt : DateTime) (y : ℤ) : Option DateTime :=
  if dt.day ≤ daysInMonth y dt.month then some { dt with year := y } else none

/-- Lines 45–47 of `app.py`: `if dt > datetime.now(): dt = dt.replace(year=dt.year - 100)`. -/
def correctFuture (now dt : DateTime) : Option DateTime :=
  if dtLt now dt then pyReplaceYear dt (dt.year - 100) else some dt

/-! ### The `parse_sales` scan loop (app.py lines 30–63) -/

/-- The loop `for j in range(i, min(i + 6, len(lines)))` searching for the first
line whose text matches the price pattern; `k` is the remaining window
size (initially 6). Returns the index and the matched group. -/
def findPriceFrom (lines : Array String) (j k : ℕ) : Option (ℕ × List Char) :=
  match k with
  | 0 => none
  | Nat.succ k' =>
    if j < lines.size then
      match priceSearch (lines.getD j "").data with
      | some g => some (j, g)
      | none => findPriceFrom lines (j + 1) k'
    else none

/-- The 6-line (inclusive) price lookahead starting at the date line. -/
def findPriceWin (lines : Array String) (i : ℕ) : Option (ℕ × List Char) :=
  findPriceFrom lines i 6

/-- The exception `ValueError`, the one class the `except` clause catches. -/
inductive PyErr where
  | valueError
deriving DecidableEq, Repr

def toExcept {α : Type} (o : Option α) : Except PyErr α :=
  match o with
  | some a => Except.ok a
  | none => Except.error PyErr.valueError

/-- The body of the `try` block after a date-time regex match: each
fallible library call (`strptime`, `replace`, `float`) may throw a
`ValueError`, modelled by `Except.error` through `toExcept`.  Returns the
optionally-emitted record and the next cursor value (`j + 1` after a
consumed price line, else `i + 1`). -/
def candidateE (lines : Array String) (now : DateTime) (i : ℕ)
    (dcs tcs : List Char) : Except PyErr (Option Sale × ℕ) :=
  match toExcept (pyStrptime dcs tcs) with
  | Except.error e => Except.error e
  | Except.ok dt0 =>
    match toExcept (correctFuture now dt0) with
    | Except.error e => Except.error e
    | Except.ok dt =>
      match findPriceWin lines i with
      | none => Except.ok (none, i + 1)
      | some (j, g) =>
        match toExcept (pyFloat (g.filter (fun c => c ≠ ','))) with
        | Except.error e => Except.error e
        | Except.ok p => Except.ok (some (⟨dt, p⟩ : Sale), j + 1)

/-- One iteration of the `while i < len(lines)` loop: on a date-time
regex match run the `try` body, where `except ValueError: pass` turns any
error into "no record, advance by one". -/
def pyIter (lines : Array String) (now : DateTime) (i : ℕ) : Option Sale × ℕ :=
  match dateSearch (lines.getD i "").data with
  | none => (none, i + 1)
  | some (dcs, tcs) =>
    match candidateE lines now i dcs tcs with
    | Except.ok r => r
    | Except.error _ => (none, i + 1)

/-- The `while` loop of `parse_sales`, with a structural bound `k` on the
remaining iterations (the cursor strictly increases, so
`lines.size - i` iterations always suffice). -/
def parseLoopAux (lines : Array String) (now : DateTime) : ℕ → ℕ → List Sale
  | 0, _ => []
  | Nat.succ k, i =>
    if i < lines.size then
      let r := pyIter lines now i
      r.1.toList ++ parseLoopAux lines now k r.2
    else []

/-- The `while` loop of `parse_sales`, from cursor position `i`. -/
def parseLoop (lines : Array String) (now : DateTime) (i : ℕ) : List Sale :=
  parseLoopAux lines now (lines.size - i) i

/-- Split a character list at newline characters. -/
def splitLinesCh : List Char → List (List Char)
  | [] => [[]]
  | c :: rest =>
    if c = Char.ofNat 10 then [] :: splitLinesCh rest
    else
      match splitLinesCh rest with
      | [] => [[c]]
      | l :: ls => (c :: l) :: ls

/-- Python `str.strip()`: drop whitespace from both ends. -/
def trimCh (cs : List Char) : List Char :=
  ((cs.dropWhile Char.isWhitespace).reverse.dropWhile Char.isWhitespace).reverse

/-- The non-blank stripped lines:
`[line.strip() for line in raw_text.splitlines() if line.strip()]`
(modelled for newline-separated input). -/
def linesOf (raw : String) : Array String :=
  (((splitLinesCh raw.data).map (fun l => String.mk (trimCh l))).filter
    (fun l => l ≠ "")).toArray

/-- The parser `parse_sales(raw_text)`, with the clock passed explicitly. -/
def parse_sales (raw : String) (now : DateTime) : List Sale :=
  parseLoop (linesOf raw) now 0

/-! ### The same loop with explicit `ValueError` propagation, to state
that the `try`/`except` confines every parse-level error. -/

/-- One loop iteration with the `try`/`except ValueError: pass` modelled
by `Except.tryCatch`. -/
def pyIterE (lines : Array String) (now : DateTime) (i : ℕ) :
    Except PyErr (Option Sale × ℕ) :=
  Except.tryCatch
    (match dateSearch (lines.getD i "").data with
     | none => pure (none, i + 1)
     | some (dcs, tcs) => candidateE lines now i dcs tcs)
    (fun _ => pure (none, i + 1))

/-- The loop with errors propagated (same structural bound): an uncaught
`ValueError` would surface as `Except.error`. -/
def parseLoopEAux (lines : Array String) (now : DateTime) :
    ℕ → ℕ → Except PyErr (List Sale)
  | 0, _ => pure []
  | Nat.succ k, i =>
    if i < lines.size then
      match pyIterE lines now i with
      | Except.error e => Except.error e
      | Except.ok r =>
        (parseLoopEAux lines now k r.2).map (fun rest => r.1.toList ++ rest)
    else pure []

def parseLoopE (lines : Array String) (now : DateTime) (i : ℕ) :
    Except PyErr (List Sale) :=
  parseLoopEAux lines now (lines.size - i) i

/-- The parser with explicit error propagation. -/
def parse_salesE (raw : String) (now : DateTime) : Except PyErr (List Sale) :=
  parseLoopE (linesOf raw) now 0

/-! ### The analysis pipeline (app.py lines 138–226, under `analyze_clicked`) -/

inductive Trend where
  | rising
  | falling
  | stable
deriving DecidableEq, Repr

/-- The numbers and labels the success branch computes and displays. -/
structure AnalysisOk where
  n : ℕ
  avg_price : ℚ
  med_price : ℚ
  min_p : ℚ
  max_p : ℚ
  trend : Trend
  avg_net : ℚ
  avg_net_last10 : Option ℚ
  avg_days_all : Option ℚ
  avg_days_10 : Option ℚ
  target_roi : ℚ
  max_pay : ℚ
  warn_low_volume : Bool
  warn_very_low : Bool
deriving DecidableEq, Repr

/-- Outcome of one analysis run: the two early-exit messages (lines 152
and 160) or the full result.  The failure constructors carry nothing: no
partial statistics exist on those paths. -/
inductive AnalyzeResult where
  | insufficientData
  | insufficientRecentData
  | ok (r : AnalysisOk)
deriving DecidableEq, Repr

/-- Line 146–149: the optional minimum-price filter. -/
def priceFilteredOf (all_sales : List Sale) (use_price_filter : Bool) (min_price : ℚ) : List Sale :=
  if use_price_filter then all_sales.filter (fun s => min_price ≤ s.price) else all_sales

/-- Lines 155–156: keep sales with `date >= now - timedelta(days=120)`,
expressed on the minute timeline (120 days = 172800 minutes); for valid
datetimes this is exactly the CPython comparison. -/
def recentOf (sales : List Sale) (now : DateTime) : List Sale :=
  sales.filter (fun s => toMin now - 172800 ≤ toMin s.date)

/-- First-half average of the chronologically sorted list, falling back
to the overall mean when the half is empty (lines 171–172). -/
def firstHalfAvg (recent : List Sale) : ℚ :=
  let n := recent.length
  let mid := n / 2
  if 0 < mid then pyMean (((sortByDate recent).take mid).map Sale.price)
  else pyMean (recent.map Sale.price)

/-- Second-half average, falling back to the overall mean when the half
is empty (line 173). -/
def secondHalfAvg (recent : List Sale) : ℚ :=
  let n := recent.length
  let mid := n / 2
  if mid < n then pyMean (((sortByDate recent).drop mid).map Sale.price)
  else pyMean (recent.map Sale.price)

/-- Trend detection by half-split comparison (lines 170–180). -/
def trendOf (recent : List Sale) : Trend :=
  if firstHalfAvg recent + 2 < secondHalfAvg recent then Trend.rising
  else if secondHalfAvg recent < firstHalfAvg recent - 2 then Trend.falling
  else Trend.stable

/-- The slice `sorted(recent_sales, key=..., reverse=True)[:10]` of line 185. -/
def lastTenOf (recent : List Sale) : List Sale :=
  (stableSort (fun a b => dtLe b.date a.date) recent).take 10

/-- The analysis pipeline from parsed records to result, lines 146–226.
`show_last_10` gates only the last-10 velocity figure (line 189). -/
def analyze (all_sales : List Sale) (use_price_filter : Bool) (min_price : ℚ)
    (show_last_10 : Bool) (now : DateTime) : AnalyzeResult :=
  let filtered_sales := priceFilteredOf all_sales use_price_filter min_price
  if filtered_sales.length < 2 then AnalyzeResult.insufficientData
  else
    let recent_sales := recentOf filtered_sales now
    let n := recent_sales.length
    if n < 2 then AnalyzeResult.insufficientRecentData
    else
      let prices := recent_sales.map Sale.price
      let avg_price := pyMean prices
      let last_10_sales := lastTenOf recent_sales
      let avg_net := pyMean (prices.map calculate_net)
      let avg_days_all := calculate_avg_days recent_sales
      let target_roi := get_target_roi avg_days_all
      AnalyzeResult.ok
        { n := n
          avg_price := avg_price
          med_price := pyMedian prices
          min_p := pyMin prices
          max_p := pyMax prices
          trend := trendOf recent_sales
          avg_net := avg_net
          avg_net_last10 :=
            if last_10_sales ≠ [] then
              some (pyMean (last_10_sales.map (fun s => calculate_net s.price)))
            else none
          avg_days_all := avg_days_all
          avg_days_10 :=
            if show_last_10 ∧ 2 ≤ last_10_sales.length then calculate_avg_days last_10_sales
            else none
          target_roi := target_roi
          max_pay := pyRound (avg_net / (1 + target_roi)) 2
          warn_low_volume := decide (n < 10)
          warn_very_low := decide (n < 5) }

/-- Accessors used to state properties of one `analyze` outcome. -/
def isOk (r : AnalyzeResult) : Bool :=
  match r with
  | AnalyzeResult.ok _ => true
  | _ => false

def nOf (r : AnalyzeResult) : Option ℕ :=
  match r with
  | AnalyzeResult.ok a => some a.n
  | _ => none

def avgPriceOf (r : AnalyzeResult) : Option ℚ :=
  match r with
  | AnalyzeResult.ok a => some a.avg_price
  | _ => none

def roiOf (r : AnalyzeResult) : Option ℚ :=
  match r with
  | AnalyzeResult.ok a => some a.target_roi
  | _ => none

/-- The spec description of the velocity estimator: sort ascending by
timestamp, take the floor whole-day difference of each consecutive pair,
return the arithmetic mean rounded to 1 decimal place (absent below 2
records). -/
def avgDaysSpec (l : List Sale) : Option ℚ :=
  if l.length < 2 then none
  else
    let s := sortByDate l
    let gaps := (s.zip s.tail).map (fun ab => daysBetween ab.1.date ab.2.date)
    some (pyRound ((gaps.sum : ℤ) / (gaps.length : ℚ)) 1)

theorem findPriceFrom_bounds (lines : Array String) :
    ∀ k j j' g, findPriceFrom lines j k = some (j', g) →
      j ≤ j' ∧ j' < j + k ∧ j' < lines.size := by
  intro k
  induction k with
  | zero => intro j j' g h; simp [findPriceFrom] at h
  | succ k' ih =>
    intro j j' g h
    rw [findPriceFrom] at h
    split at h
    · rename_i hj
      split at h
      · rename_i hps
        cases h
        exact ⟨le_rfl, by omega, hj⟩
      · have := ih (j + 1) j' g h
        exact ⟨by omega, by omega, this.2.2⟩
    · exact absurd h (by simp)

theorem candidateE_ok_lt (lines : Array String) (now : DateTime) (i : ℕ)
    (dcs tcs : List Char) (r : Option Sale × ℕ)
    (h : candidateE lines now i dcs tcs = Except.ok r) : i < r.2 := by
  rw [candidateE] at h
  split at h
  · exact absurd h (by simp)
  · split at h
    · exact absurd h (by simp)
    · split at h
      · cases h; simp
      · rename_i j g hwin
        split at h
        · exact absurd h (by simp)
        · cases h
          have := findPriceFrom_bounds lines 6 i j g hwin
          simp
          omega

theorem pyIter_lt (lines : Array String) (now : DateTime) (i : ℕ) :
    i < (pyIter lines now i).2 := by
  rw [pyIter]
  split
  · simp
  · rename_i dcs tcs hds
    split
    · rename_i r hok
      exact candidateE_ok_lt lines now i dcs tcs r hok
    · simp

theorem parseLoopAux_stop (lines : Array String) (now : DateTime)
    (k i : ℕ) (h : ¬ i < lines.size) : parseLoopAux lines now k i = [] := by
  cases k with
  | zero => rfl
  | succ k => rw [parseLoopAux, if_neg h]

theorem parseLoopAux_congr (lines : Array String) (now : DateTime) :
    ∀ k1 k2 i, lines.size - i ≤ k1 → lines.size - i ≤ k2 →
      parseLoopAux lines now k1 i = parseLoopAux lines now k2 i := by
  intro k1
  induction k1 with
  | zero =>
    intro k2 i h1 h2
    have hs : ¬ i < lines.size := by omega
    rw [parseLoopAux_stop lines now 0 i hs, parseLoopAux_stop lines now k2 i hs]
  | succ k ih =>
    intro k2 i h1 h2
    by_cases hs : i < lines.size
    · cases k2 with
      | zero => omega
      | succ k2 =>
        rw [parseLoopAux, parseLoopAux, if_pos hs, if_pos hs]
        have hlt := pyIter_lt lines now i
        dsimp only
        rw [ih k2 (pyIter lines now i).2 (by omega) (by omega)]
    · rw [parseLoopAux_stop lines now (k + 1) i hs, parseLoopAux_stop lines now k2 i hs]

/-- The loop satisfies the natural unfolding of `while i < len(lines)`. -/
theorem parseLoop_eq (lines : Array String) (now : DateTime) (i : ℕ) :
    parseLoop lines now i =
      if i < lines.size then
        (pyIter lines now i).1.toList ++ parseLoop lines now (pyIter lines now i).2
      else [] := by
  rw [parseLoop]
  by_cases hs : i < lines.size
  · rw [if_pos hs]
    obtain ⟨k, hk⟩ : ∃ k, lines.size - i = k + 1 := ⟨lines.size - i - 1, by omega⟩
    rw [hk, parseLoopAux, if_pos hs]
    have hlt := pyIter_lt lines now i
    dsimp only
    rw [parseLoop, parseLoopAux_congr lines now k (lines.size - (pyIter lines now i).2)
      (pyIter lines now i).2 (by omega) (by omega)]
  · rw [if_neg hs, parseLoopAux_stop lines now _ i hs]

theorem pyIterE_eq (lines : Array String) (now : DateTime) (i : ℕ) :
    pyIterE lines now i = Except.ok (pyIter lines now i) := by
  rw [pyIterE, pyIter]
  split
  · rfl
  · rename_i dcs tcs hds
    cases candidateE lines now i dcs tcs with
    | ok r => rfl
    | error e => rfl

theorem intervalsOf_zip : ∀ s : List Sale,
    intervalsOf s = (s.zip s.tail).map (fun ab => daysBetween ab.1.date ab.2.date) := by
  intro s
  match s with
  | [] => rfl
  | [a] => rfl
  | a :: b :: t =>
    rw [intervalsOf]
    simp only [List.tail_cons, List.zip_cons_cons, List.map_cons]
    rw [intervalsOf_zip (b :: t)]
    rfl

theorem length_insertSorted {α : Type} (le : α → α → Bool) (a : α) :
    ∀ l : List α, (insertSorted le a l).length = l.length + 1 := by
  intro l
  induction l with
  | nil => rfl
  | cons b t ih =>
    rw [insertSorted]
    split
    · simp
    · simp only [List.length_cons, ih]

theorem length_stableSort {α : Type} (le : α → α → Bool) :
    ∀ l : List α, (stableSort le l).length = l.length := by
  intro l
  induction l with
  | nil => rfl
  | cons a t ih =>
    rw [stableSort, length_insertSorted, ih, List.length_cons]

theorem length_intervalsOf : ∀ s : List Sale, (intervalsOf s).length = s.length - 1 := by
  intro s
  match s with
  | [] => rfl
  | [a] => rfl
  | a :: b :: t =>
    rw [intervalsOf]
    simp only [List.length_cons, length_intervalsOf (b :: t)]
    omega

theorem findPriceFrom_first (lines : Array String) :
    ∀ k j j' g, findPriceFrom lines j k = some (j', g) →
      priceSearch (lines.getD j' "").data = some g
      ∧ ∀ m, j ≤ m → m < j' → priceSearch (lines.getD m "").data = none := by
  intro k
  induction k with
  | zero => intro j j' g h; exact absurd h (by simp [findPriceFrom])
  | succ k ih =>
    intro j j' g h
    rw [findPriceFrom] at h
    split at h
    · rename_i hj
      rw [show lines.get ⟨j, hj⟩ = lines.getD j "" from by simp [Array.getD, hj]] at h
      split at h
      · rename_i g0 hps
        cases h
        exact ⟨hps, fun m hm1 hm2 => absurd hm2 (by omega)⟩
      · rename_i hps
        have hrec := ih (j + 1) j' g h
        refine ⟨hrec.1, ?_⟩
        intro m hm1 hm2
        by_cases hmj : m = j
        · rw [hmj]; exact hps
        · exact hrec.2 m (by omega) hm2
    · exact absurd h (by simp)

theorem findPriceFrom_none_all (lines : Array String) :
    ∀ k j, findPriceFrom lines j k = none →
      ∀ m, j ≤ m → m < j + k → m < lines.size →
        priceSearch (lines.getD m "").data = none := by
  intro k
  induction k with
  | zero => intro j h m hm1 hm2 hm3; omega
  | succ k ih =>
    intro j h m hm1 hm2 hm3
    rw [findPriceFrom] at h
    split at h
    · rename_i hj
      rw [show lines.get ⟨j, hj⟩ = lines.getD j "" from by simp [Array.getD, hj]] at h
      split at h
      · exact absurd h (by simp)
      · rename_i hps
        by_cases hmj : m = j
        · rw [hmj]; exact hps
        · exact ih (j + 1) h m (by omega) (by omega) hm3
    · rename_i hj
      omega

theorem isDig_bounds (c : Char) (h : isDig c = true) :
    48 ≤ c.toNat ∧ c.toNat ≤ 57 := by
  simp [isDig, Char.isDigit] at h
  exact h

theorem tryDateAt_shape (cs : List Char) (dcs tcs : List Char)
    (h : tryDateAt cs = some (dcs, tcs)) :
    ∃ a b c d e f, dcs = [a, b, '/', c, d, '/', e, f]
      ∧ isDig e = true ∧ isDig f = true := by
  rw [tryDateAt.eq_def] at h
  split at h
  · rename_i a b s1 c d s2 e f cm sp rest
    split at h
    · rename_i hcond
      split at h
      · rename_i t ht
        cases h
        exact ⟨a, b, c, d, e, f, rfl,
          hcond.2.2.2.2.2.2.1, hcond.2.2.2.2.2.2.2.1⟩
      · exact absurd h (by simp)
    · exact absurd h (by simp)
  · exact absurd h (by simp)

theorem dateSearch_shape : ∀ cs dcs tcs, dateSearch cs = some (dcs, tcs) →
    ∃ a b c d e f, dcs = [a, b, '/', c, d, '/', e, f]
      ∧ isDig e = true ∧ isDig f = true := by
  intro cs
  induction cs with
  | nil => intro dcs tcs h; exact absurd h (by simp [dateSearch])
  | cons c rest ih =>
    intro dcs tcs h
    rw [dateSearch] at h
    split at h
    · rename_i g hg
      cases h
      exact tryDateAt_shape _ _ _ hg
    · exact ih _ _ h

theorem pyStrptime_year (dcs tcs : List Char) (dt : DateTime)
    (a b c d e f : Char) (hd : dcs = [a, b, '/', c, d, '/', e, f])
    (he : isDig e = true) (hf : isDig f = true)
    (h : pyStrptime dcs tcs = some dt) :
    1969 ≤ dt.year ∧ dt.year ≤ 2068 := by
  subst hd
  rw [pyStrptime] at h
  split at h
  · rename_i hcond
    cases h
    have he2 := isDig_bounds e he
    have hf2 := isDig_bounds f hf
    have hyy : digitsToNat [e, f] ≤ 99 := by
      simp [digitsToNat]
      omega
    dsimp only
    rw [pivotYear]
    split
    · constructor
      · omega
      · rename_i hle
        omega
    · rename_i hgt
      constructor
      · omega
      · omega
  · exact absurd h (by simp)

theorem correctFuture_le (now dt dt' : DateTime)
    (hnow : 1969 ≤ now.year) (hy2 : dt.year ≤ 2068)
    (h : correctFuture now dt = some dt') :
    dtLe dt' now = true ∧ (dtLt now dt = true → dt'.year = dt.year - 100) := by
  rw [correctFuture] at h
  split at h
  · rename_i hlt
    rw [pyReplaceYear] at h
    split at h
    · cases h
      constructor
      · rw [dtLe, dtLt]
        rw [if_pos (by dsimp only; omega : ¬ now.year = ({ dt with year := dt.year - 100 } : DateTime).year)]
        simp
        omega
      · intro _
        rfl
    · exact absurd h (by simp)
  · rename_i hlt
    cases h
    have hfalse : dtLt now dt = false := by
      revert hlt
      cases dtLt now dt
      · intro _; rfl
      · intro hc; exact absurd rfl hc
    constructor
    · rw [dtLe, hfalse]
      rfl
    · intro hcon
      rw [hcon] at hfalse
      exact absurd hfalse (by simp)

theorem toExcept_eq_ok {α : Type} (o : Option α) (a : α) :
    toExcept o = Except.ok a ↔ o = some a := by
  cases o <;> simp [toExcept]

theorem candidateE_emit (lines : Array String) (now : DateTime) (i : ℕ)
    (dcs tcs : List Char) (s : Sale) (k : ℕ)
    (h : candidateE lines now i dcs tcs = Except.ok (some s, k)) :
    ∃ dt0, pyStrptime dcs tcs = some dt0 ∧ correctFuture now dt0 = some s.date := by
  rw [candidateE.eq_def] at h
  split at h
  · exact absurd h (by simp)
  · rename_i dt0 hdt0
    split at h
    · exact absurd h (by simp)
    · rename_i dt hdt
      split at h
      · simp at h
      · rename_i j g hw
        split at h
        · exact absurd h (by simp)
        · rename_i p hp
          rw [Except.ok.injEq, Prod.mk.injEq, Option.some.injEq] at h
          refine ⟨dt0, (toExcept_eq_ok _ _).mp hdt0, ?_⟩
          rw [(toExcept_eq_ok _ _).mp hdt, ← h.1]

theorem pyIter_emit (lines : Array String) (now : DateTime) (i : ℕ)
    (s : Sale) (i2 : ℕ) (h : pyIter lines now i = (some s, i2)) :
    ∃ dcs tcs dt0, dateSearch (lines.getD i "").data = some (dcs, tcs)
      ∧ pyStrptime dcs tcs = some dt0 ∧ correctFuture now dt0 = some s.date := by
  rw [pyIter] at h
  split at h
  · simp at h
  · rename_i dcs tcs hds
    split at h
    · rename_i r hok
      rw [h] at hok
      obtain ⟨dt0, h1, h2⟩ := candidateE_emit lines now i dcs tcs s i2 hok
      exact ⟨dcs, tcs, dt0, hds, h1, h2⟩
    · simp at h

theorem parseLoopAux_dates (lines : Array String) (now : DateTime)
    (hnow : 1969 ≤ now.year) :
    ∀ k i r, r ∈ parseLoopAux lines now k i → dtLe r.date now = true := by
  intro k
  induction k with
  | zero => intro i r h; simp [parseLoopAux] at h
  | succ k ih =>
    intro i r h
    rw [parseLoopAux] at h
    split at h
    · rename_i hs
      dsimp only at h
      rcases List.mem_append.mp h with h1 | h2
      · have hfst : (pyIter lines now i).1 = some r := by
          cases hopt : (pyIter lines now i).1 with
          | none => rw [hopt] at h1; simp [Option.toList] at h1
          | some s =>
            rw [hopt] at h1
            simp [Option.toList] at h1
            rw [h1]
        obtain ⟨dcs, tcs, dt0, hds, hs0, hc0⟩ :=
          pyIter_emit lines now i r (pyIter lines now i).2
            (by rw [← hfst])
        obtain ⟨a, b, c, d, e, f, hdcs, he, hf⟩ := dateSearch_shape _ _ _ hds
        have hy := pyStrptime_year dcs tcs dt0 a b c d e f hdcs he hf hs0
        exact (correctFuture_le now dt0 r.date hnow hy.2 hc0).1
      · exact ih _ r h2
    · simp at h

theorem parseLoopEAux_ok (lines : Array String) (now : DateTime) :
    ∀ k i, parseLoopEAux lines now k i = Except.ok (parseLoopAux lines now k i) := by
  intro k
  induction k with
  | zero => intro i; rfl
  | succ k ih =>
    intro i
    rw [parseLoopEAux, parseLoopAux]
    by_cases hs : i < lines.size
    · rw [if_pos hs, if_pos hs, pyIterE_eq]
      dsimp only
      rw [ih]
      rfl
    · rw [if_neg hs, if_neg hs]
      rfl

/-! ## Claims -/

/-- Claim C2: `targetROI` is the exact three-band step function: absent →
0.45; `avgDays < 5` → 0.30; `10 ≤ avgDays ≤ 15` (endpoints included) →
0.40; `5 ≤ avgDays < 10` or `avgDays > 15` → 0.45; in particular
`targetROI 4.9 = 0.30`, `targetROI 10 = 0.40`, `targetROI 15 = 0.40`,
`targetROI 15.1 = 0.45`, `targetROI absent = 0.45`. -/
theorem C2_target_roi_bands :
    get_target_roi none = 0.45
    ∧ (∀ d : ℚ, d < 5 → get_target_roi (some d) = 0.30)
    ∧ (∀ d : ℚ, 10 ≤ d → d ≤ 15 → get_target_roi (some d) = 0.40)
    ∧ (∀ d : ℚ, 5 ≤ d → d < 10 → get_target_roi (some d) = 0.45)
    ∧ (∀ d : ℚ, 15 < d → get_target_roi (some d) = 0.45)
    ∧ get_target_roi (some 4.9) = 0.30
    ∧ get_target_roi (some 10) = 0.40
    ∧ get_target_roi (some 15) = 0.40
    ∧ get_target_roi (some 15.1) = 0.45 := by
  refine ⟨rfl, ?_, ?_, ?_, ?_, ?_, ?_, ?_, ?_⟩
  · intro d hd
    simp only [get_target_roi, if_pos hd]
  · intro d h10 h15
    have h5 : ¬ d < 5 := by linarith
    simp only [get_target_roi, if_neg h5, if_pos (And.intro h10 h15)]
  · intro d h5 h10
    have hb : ¬ (10 ≤ d ∧ d ≤ 15) := by intro hc; linarith [hc.1]
    simp only [get_target_roi, if_neg (by linarith : ¬ d < 5), if_neg hb]
  · intro d h15
    have hb : ¬ (10 ≤ d ∧ d ≤ 15) := by intro hc; linarith [hc.2]
    simp only [get_target_roi, if_neg (by linarith : ¬ d < 5), if_neg hb]
  · norm_num [get_target_roi]
  · norm_num [get_target_roi]
  · norm_num [get_target_roi]
  · norm_num [get_target_roi]

/-- Witness for C2 at concrete points of each band. -/
theorem C2_target_roi_bands_witness :
    get_target_roi (some 3) = 0.30 ∧ get_target_roi (some 12) = 0.40
    ∧ get_target_roi (some 7) = 0.45 ∧ get_target_roi (some 20) = 0.45 :=
  ⟨C2_target_roi_bands.2.1 3 (by norm_num),
   C2_target_roi_bands.2.2.1 12 (by norm_num) (by norm_num),
   C2_target_roi_bands.2.2.2.1 7 (by norm_num) (by norm_num),
   C2_target_roi_bands.2.2.2.2.1 20 (by norm_num)⟩

/-- Claim C3: the net payout equals `p * 0.97 - 8.5` for `p < 57` and
`p * 0.89 - 4` for `p ≥ 57`; at exactly 57 the higher tier applies:
`net 57 = 57 * 0.89 - 4` and `net 56.99 = 56.99 * 0.97 - 8.5`. -/
theorem C3_net_payout_formula :
    (∀ p : ℚ, p < 57 → calculate_net p = p * 0.97 - 8.5)
    ∧ (∀ p : ℚ, 57 ≤ p → calculate_net p = p * 0.89 - 4)
    ∧ calculate_net 57 = 57 * 0.89 - 4
    ∧ calculate_net 56.99 = 56.99 * 0.97 - 8.5 := by
  refine ⟨?_, ?_, ?_, ?_⟩
  · intro p hp
    simp only [calculate_net, if_pos hp]
  · intro p hp
    simp only [calculate_net, if_neg (by linarith : ¬ p < 57)]
  · norm_num [calculate_net]
  · norm_num [calculate_net]

/-- Witness for C3 on both sides of the tier boundary. -/
theorem C3_net_payout_formula_witness :
    calculate_net 10 = 10 * 0.97 - 8.5 ∧ calculate_net 100 = 100 * 0.89 - 4 :=
  ⟨C3_net_payout_formula.1 10 (by norm_num),
   C3_net_payout_formula.2.1 100 (by norm_num)⟩

/-- Claim C10: net payout is not monotone across the tier boundary
(`net 56.99 = 46.7803 > 46.73 = net 57`) although it is strictly
increasing within each tier. -/
theorem C10_net_not_monotone :
    calculate_net 56.99 = 46.7803
    ∧ calculate_net 57 = 46.73
    ∧ (56.99 : ℚ) < 57
    ∧ calculate_net 57 < calculate_net 56.99
    ∧ (∀ p1 p2 : ℚ, p1 < p2 → p2 < 57 → calculate_net p1 < calculate_net p2)
    ∧ (∀ p1 p2 : ℚ, 57 ≤ p1 → p1 < p2 → calculate_net p1 < calculate_net p2) := by
  refine ⟨by norm_num [calculate_net], by norm_num [calculate_net], by norm_num,
    by norm_num [calculate_net], ?_, ?_⟩
  · intro p1 p2 h12 h57
    simp only [calculate_net, if_pos (lt_trans h12 h57), if_pos h57]
    linarith
  · intro p1 p2 h57 h12
    simp only [calculate_net, if_neg (by linarith : ¬ p1 < 57),
      if_neg (by linarith : ¬ p2 < 57)]
    linarith

/-- Witness for C10: strict growth inside each tier at concrete prices. -/
theorem C10_net_not_monotone_witness :
    calculate_net 10 < calculate_net 20 ∧ calculate_net 60 < calculate_net 70 :=
  ⟨C10_net_not_monotone.2.2.2.2.1 10 20 (by norm_num) (by norm_num),
   C10_net_not_monotone.2.2.2.2.2 60 70 (by norm_num) (by norm_num)⟩

/-- Claim C8: for every record set of size ≥ 2 the trend label compares the
half-split averages (splitting the chronologically sorted list at
`mid = n / 2`, an empty half falling back to the overall mean): rising
iff the difference exceeds 2, falling iff it is below −2, stable
otherwise; and the pipeline's trend field is exactly this label computed
on the recency-filtered set. -/
theorem C8_trend_halves (l : List Sale) (h2 : 2 ≤ l.length) :
    (trendOf l = Trend.rising ↔ 2 < secondHalfAvg l - firstHalfAvg l)
    ∧ (trendOf l = Trend.falling ↔ secondHalfAvg l - firstHalfAvg l < -2)
    ∧ (trendOf l = Trend.stable ↔
        -2 ≤ secondHalfAvg l - firstHalfAvg l ∧ secondHalfAvg l - firstHalfAvg l ≤ 2)
    ∧ (∀ sales upf mp s10 now r, analyze sales upf mp s10 now = AnalyzeResult.ok r →
        r.trend = trendOf (recentOf (priceFilteredOf sales upf mp) now)) := by
  refine ⟨?_, ?_, ?_, ?_⟩
  · rw [trendOf]
    split
    · rename_i h
      simp only [true_iff]
      linarith
    · split
      · rename_i h1 h
        simp only [iff_iff_implies_and_implies]
        constructor
        · intro hc
          exact absurd hc (by simp)
        · intro hc
          linarith
      · rename_i h1 h2
        simp only [iff_iff_implies_and_implies]
        constructor
        · intro hc
          exact absurd hc (by simp)
        · intro hc
          linarith
  · rw [trendOf]
    split
    · rename_i h
      simp only [iff_iff_implies_and_implies]
      constructor
      · intro hc
        exact absurd hc (by simp)
      · intro hc
        linarith
    · split
      · rename_i h1 h
        simp only [true_iff]
        linarith
      · rename_i h1 h2
        simp only [iff_iff_implies_and_implies]
        constructor
        · intro hc
          exact absurd hc (by simp)
        · intro hc
          linarith
  · rw [trendOf]
    split
    · rename_i h
      simp only [iff_iff_implies_and_implies]
      constructor
      · intro hc
        exact absurd hc (by simp)
      · intro hc
        linarith [hc.2]
    · split
      · rename_i h1 h
        simp only [iff_iff_implies_and_implies]
        constructor
        · intro hc
          exact absurd hc (by simp)
        · intro hc
          linarith [hc.1]
      · rename_i h1 h2
        simp only [true_iff]
        constructor
        · linarith
        · linarith
  · intro sales upf mp s10 now r hok
    simp only [analyze] at hok
    split at hok
    · exact absurd hok (by simp)
    · split at hok
      · exact absurd hok (by simp)
      · cases hok
        rfl

/-- Witness for C8 on a concrete two-record set. -/
theorem C8_trend_halves_witness :
    trendOf [⟨⟨2026, 9, 1, 0, 0⟩, 100⟩, ⟨⟨2026, 9, 11, 0, 0⟩, 120⟩] = Trend.rising :=
  (C8_trend_halves [⟨⟨2026, 9, 1, 0, 0⟩, 100⟩, ⟨⟨2026, 9, 11, 0, 0⟩, 120⟩]
    (by decide)).1.mpr (by decide)

/-- Claim C7: the pipeline fails in two ordered stages and never yields a
partial result: fewer than 2 records after the optional price filter →
`insufficientData` (for every clock value, so the recency filter plays no
part); otherwise fewer than 2 records within the 120-day window →
`insufficientRecentData`.  Both failure constructors carry no data. -/
theorem C7_filter_stages (sales : List Sale) (upf : Bool) (mp : ℚ)
    (s10 : Bool) (now : DateTime) :
    ((priceFilteredOf sales upf mp).length < 2 →
      analyze sales upf mp s10 now = AnalyzeResult.insufficientData
      ∧ ∀ now2, analyze sales upf mp s10 now2 = AnalyzeResult.insufficientData)
    ∧ (2 ≤ (priceFilteredOf sales upf mp).length →
      (recentOf (priceFilteredOf sales upf mp) now).length < 2 →
      analyze sales upf mp s10 now = AnalyzeResult.insufficientRecentData) := by
  constructor
  · intro hlen
    constructor
    · rw [analyze, if_pos hlen]
    · intro now2
      rw [analyze, if_pos hlen]
  · intro hlen hrec
    rw [analyze, if_neg (by omega : ¬ (priceFilteredOf sales upf mp).length < 2),
      if_pos hrec]

/-- Witness for C7: both failure stages on concrete inputs. -/
theorem C7_filter_stages_witness :
    analyze [⟨⟨2026, 9, 1, 0, 0⟩, 100⟩] false 0 true ⟨2026, 10, 12, 0, 0⟩
      = AnalyzeResult.insufficientData
    ∧ analyze [⟨⟨2020, 1, 1, 0, 0⟩, 5⟩, ⟨⟨2020, 1, 2, 0, 0⟩, 6⟩] false 0 true
        ⟨2026, 10, 12, 0, 0⟩ = AnalyzeResult.insufficientRecentData :=
  ⟨((C7_filter_stages [⟨⟨2026, 9, 1, 0, 0⟩, 100⟩] false 0 true
      ⟨2026, 10, 12, 0, 0⟩).1 (by decide)).1,
   (C7_filter_stages [⟨⟨2020, 1, 1, 0, 0⟩, 5⟩, ⟨⟨2020, 1, 2, 0, 0⟩, 6⟩] false 0 true
      ⟨2026, 10, 12, 0, 0⟩).2 (by decide) (by decide)⟩

/-- Claim C4: `averageDaysBetweenSales` is absent below 2 records; for `n ≥ 2`
it sorts ascending by timestamp, takes the floor whole-day difference of
each consecutive pair, and returns the mean of those gaps rounded to 1
decimal place; 3 records spaced exactly 10 and 20 days apart yield 15.0. -/
theorem C4_avg_days :
    (∀ l : List Sale, l.length < 2 → calculate_avg_days l = none)
    ∧ (∀ l : List Sale, 2 ≤ l.length → calculate_avg_days l = avgDaysSpec l)
    ∧ calculate_avg_days
        [⟨⟨2024, 1, 1, 0, 0⟩, 1⟩, ⟨⟨2024, 1, 11, 0, 0⟩, 2⟩, ⟨⟨2024, 1, 31, 0, 0⟩, 3⟩]
        = some 15 := by
  refine ⟨?_, ?_, by decide⟩
  · intro l hl
    rw [calculate_avg_days, if_pos hl]
  · intro l hl
    rw [calculate_avg_days, avgDaysSpec, if_neg (by omega : ¬ l.length < 2),
      if_neg (by omega : ¬ l.length < 2)]
    have hlen : (intervalsOf (sortByDate l)).length = l.length - 1 := by
      rw [length_intervalsOf, sortByDate, length_stableSort]
    have hne : intervalsOf (sortByDate l) ≠ [] := by
      intro hc
      rw [hc] at hlen
      simp at hlen
      omega
    rw [if_neg hne]
    rw [intervalsOf_zip (sortByDate l)]

/-- Witness for C4: the absent case at a singleton and the refinement at
a concrete pair. -/
theorem C4_avg_days_witness :
    calculate_avg_days [⟨⟨2024, 1, 1, 0, 0⟩, 1⟩] = none
    ∧ calculate_avg_days [⟨⟨2024, 1, 1, 0, 0⟩, 1⟩, ⟨⟨2024, 1, 11, 0, 0⟩, 2⟩]
        = avgDaysSpec [⟨⟨2024, 1, 1, 0, 0⟩, 1⟩, ⟨⟨2024, 1, 11, 0, 0⟩, 2⟩] :=
  ⟨C4_avg_days.1 [⟨⟨2024, 1, 1, 0, 0⟩, 1⟩] (by decide),
   C4_avg_days.2.1 [⟨⟨2024, 1, 1, 0, 0⟩, 1⟩, ⟨⟨2024, 1, 11, 0, 0⟩, 2⟩] (by decide)⟩

/-- Claim C1 counterexample: on the synthetic 2-record set priced 100 and 120,
10 days apart, both inside the 120-day window, with the price filter
disabled, the pipeline succeeds but produces target ROI 0.40 (the 10-day
average gap lies in the inclusive 10–15 band), not 0.45 as claimed. -/
theorem C1_roundtrip_cex :
    isOk (analyze [⟨⟨2026, 9, 1, 0, 0⟩, 100⟩, ⟨⟨2026, 9, 11, 0, 0⟩, 120⟩]
        false 0 true ⟨2026, 10, 12, 0, 0⟩) = true
    ∧ roiOf (analyze [⟨⟨2026, 9, 1, 0, 0⟩, 100⟩, ⟨⟨2026, 9, 11, 0, 0⟩, 120⟩]
        false 0 true ⟨2026, 10, 12, 0, 0⟩) ≠ some 0.45 := by
  decide

/-- Claim C1 amended: the same synthetic run yields a successful result with
`n = 2`, average price 110, and target ROI 0.40. -/
theorem C1_roundtrip_amended :
    nOf (analyze [⟨⟨2026, 9, 1, 0, 0⟩, 100⟩, ⟨⟨2026, 9, 11, 0, 0⟩, 120⟩]
        false 0 true ⟨2026, 10, 12, 0, 0⟩) = some 2
    ∧ avgPriceOf (analyze [⟨⟨2026, 9, 1, 0, 0⟩, 100⟩, ⟨⟨2026, 9, 11, 0, 0⟩, 120⟩]
        false 0 true ⟨2026, 10, 12, 0, 0⟩) = some 110
    ∧ roiOf (analyze [⟨⟨2026, 9, 1, 0, 0⟩, 100⟩, ⟨⟨2026, 9, 11, 0, 0⟩, 120⟩]
        false 0 true ⟨2026, 10, 12, 0, 0⟩) = some 0.40 := by
  decide

/-- Claim C5: after a date-time match on line `i` that parses successfully, the
price search scans exactly lines `i` to `i + 5` (6 lines, inclusive) for
the first price-pattern match; if the first match (on line `j`) converts
to a number, a record is emitted and the cursor resumes at `j + 1`, so
line `j` is not re-scanned as a potential date line; if the first match
fails numeric conversion (a digitless group such as a bare comma), the
candidate is abandoned — no record — and the cursor advances by exactly
one; if no match exists in the window, no record is emitted and the
cursor advances by exactly one. -/
theorem C5_price_lookahead (lines : Array String) (now : DateTime) (i : ℕ)
    (dcs tcs : List Char) (dt : DateTime)
    (hi : i < lines.size)
    (hds : dateSearch (lines.getD i "").data = some (dcs, tcs))
    (hdt : (pyStrptime dcs tcs).bind (correctFuture now) = some dt) :
    (findPriceWin lines i = none →
      (∀ m, i ≤ m → m < i + 6 → m < lines.size →
        priceSearch (lines.getD m "").data = none)
      ∧ parseLoop lines now i = parseLoop lines now (i + 1))
    ∧ (∀ j g, findPriceWin lines i = some (j, g) →
      i ≤ j ∧ j ≤ i + 5 ∧ j < lines.size
      ∧ priceSearch (lines.getD j "").data = some g
      ∧ (∀ m, i ≤ m → m < j → priceSearch (lines.getD m "").data = none)
      ∧ (∀ p, pyFloat (g.filter (fun c => c ≠ ',')) = some p →
          parseLoop lines now i = ⟨dt, p⟩ :: parseLoop lines now (j + 1))
      ∧ (pyFloat (g.filter (fun c => c ≠ ',')) = none →
          parseLoop lines now i = parseLoop lines now (i + 1))) := by
  obtain ⟨dt0, hs0, hc0⟩ := Option.bind_eq_some.mp hdt
  constructor
  · intro hw
    refine ⟨fun m hm1 hm2 hm3 => findPriceFrom_none_all lines 6 i hw m hm1 (by omega) hm3, ?_⟩
    have hIter : pyIter lines now i = (none, i + 1) := by
      rw [pyIter, hds]
      dsimp only
      rw [candidateE.eq_def, hs0]
      simp only [toExcept]
      rw [hc0]
      simp only [toExcept]
      rw [show findPriceWin lines i = none from hw]
    rw [parseLoop_eq lines now i, if_pos hi, hIter]
    simp
  · intro j g hw
    have hb := findPriceFrom_bounds lines 6 i j g hw
    have hf := findPriceFrom_first lines 6 i j g hw
    refine ⟨hb.1, by omega, hb.2.2, hf.1, hf.2, ?_, ?_⟩
    · intro p hp
      have hIter : pyIter lines now i = (some ⟨dt, p⟩, j + 1) := by
        rw [pyIter, hds]
        dsimp only
        rw [candidateE.eq_def, hs0]
        simp only [toExcept]
        rw [hc0]
        simp only [toExcept]
        rw [show findPriceWin lines i = some (j, g) from hw]
        dsimp only
        rw [hp]
      rw [parseLoop_eq lines now i, if_pos hi, hIter]
      simp
    · intro hp
      have hIter : pyIter lines now i = (none, i + 1) := by
        rw [pyIter, hds]
        dsimp only
        rw [candidateE.eq_def, hs0]
        simp only [toExcept]
        rw [hc0]
        simp only [toExcept]
        rw [show findPriceWin lines i = some (j, g) from hw]
        dsimp only
        rw [hp]
      rw [parseLoop_eq lines now i, if_pos hi, hIter]
      simp

/-- Witness for C5: a concrete two-line input where the price is found on
the next line, a record is emitted, and the cursor jumps past the
consumed price line. -/
theorem C5_price_lookahead_witness :
    parseLoop (linesOf "01/02/25, 1:00 AM\n£109") ⟨2026, 10, 12, 0, 0⟩ 0
      = ⟨⟨2025, 1, 2, 1, 0⟩, 109⟩
        :: parseLoop (linesOf "01/02/25, 1:00 AM\n£109") ⟨2026, 10, 12, 0, 0⟩ 2 :=
  ((C5_price_lookahead (linesOf "01/02/25, 1:00 AM\n£109") ⟨2026, 10, 12, 0, 0⟩ 0
      "01/02/25".data "1:00 AM".data ⟨2025, 1, 2, 1, 0⟩
      (by decide) (by decide) (by decide)).2 1 "109".data
      (by decide)).2.2.2.2.2.1 109 (by decide)

/-- Claim C5 counterexample to the claim as stated: on
`"01/02/25, 1:00 AM" / "£," / "£50"` the date parses, the lookahead
window contains price-pattern matches (the digitless `","` on line 1 and
the convertible `"50"` on line 2), yet no record at all is emitted — the
first match aborts the candidate because `float` raises on the digitless
group, and the cursor advances by one instead of consuming a price. -/
theorem C5_price_lookahead_cex :
    (pyStrptime "01/02/25".data "1:00 AM".data).bind
        (correctFuture ⟨2026, 10, 12, 0, 0⟩) = some ⟨2025, 1, 2, 1, 0⟩
    ∧ dateSearch ((linesOf "01/02/25, 1:00 AM\n£,\n£50").getD 0 "").data
        = some ("01/02/25".data, "1:00 AM".data)
    ∧ findPriceWin (linesOf "01/02/25, 1:00 AM\n£,\n£50") 0 = some (1, [','])
    ∧ priceSearch ((linesOf "01/02/25, 1:00 AM\n£,\n£50").getD 2 "").data
        = some "50".data
    ∧ parse_sales "01/02/25, 1:00 AM\n£,\n£50" ⟨2026, 10, 12, 0, 0⟩ = [] := by
  decide

/-- Claim C6: no emitted record is in the future: for any clock with year at
least 1969 (the earliest year the two-digit-year convention can produce),
every record of `parse_sales` has `timestamp ≤ now`; and whenever a
parsed date-time lies strictly after `now`, the correction replaces its
year by the parsed year minus 100 and the corrected moment is not in the
future. -/
theorem C6_no_future (raw : String) (now : DateTime) (h1969 : 1969 ≤ now.year) :
    (∀ r ∈ parse_sales raw now, dtLe r.date now = true)
    ∧ (∀ dt dt' : DateTime, dt.year ≤ 2068 → dtLt now dt = true →
        correctFuture now dt = some dt' →
        dt'.year = dt.year - 100 ∧ dtLe dt' now = true) := by
  constructor
  · intro r hr
    exact parseLoopAux_dates (linesOf raw) now h1969 _ 0 r hr
  · intro dt dt' hy2 hlt hc
    have hcf := correctFuture_le now dt dt' h1969 hy2 hc
    exact ⟨hcf.2 hlt, hcf.1⟩

/-- Witness for C6: the future-looking input `01/01/27` (relative to a
2026 clock) is corrected to 1927 and the emitted record is in the past. -/
theorem C6_no_future_witness :
    dtLe (⟨1927, 1, 1, 1, 0⟩ : DateTime) ⟨2026, 10, 12, 0, 0⟩ = true :=
  (C6_no_future "01/01/27, 1:00 AM\n£10" ⟨2026, 10, 12, 0, 0⟩ (by decide)).1
    ⟨⟨1927, 1, 1, 1, 0⟩, 10⟩ (by decide)

/-- Claim C9: the parser is total and all parse-level errors are confined: the
variant of `parse_sales` that propagates every `ValueError` raised by
`strptime`, `replace` or `float` always returns `Except.ok` of exactly
the records the total parser produces, for every input string and clock —
no exception escapes and scanning always reaches the end of the input. -/
theorem C9_parser_total (raw : String) (now : DateTime) :
    parse_salesE raw now = Except.ok (parse_sales raw now) := by
  rw [parse_salesE, parse_sales, parseLoopE, parseLoop, parseLoopEAux_ok]

end AvSales
